import Mathlib

/-!
Verification development for a frame-driven side-scrolling avoidance game
(single gravity-driven body, gapped obstacle pairs, pooled obstacle records,
circle-vs-rectangle collision, per-pair scoring, session state machine).

The simulation core is shallowly embedded below.  JavaScript numbers are
modelled as exact rationals (`ℚ`); every numeric literal of the source is
carried over verbatim as a fraction (0.08 = 2/25, etc.).  Randomness is
modelled by oracle parameters: the spawn routine receives the raw draw
`r ∈ [0,1)` that `Math.random()` would produce, and the death explosion
receives the list of randomized particle attributes it would draw.
DOM, audio and persistence collaborators are side-effect-free from the
core's point of view and are omitted, as is the purely decorative cloud
layer; the ground-scroll offset and the particle burst, which the session
reset clears, are kept.
-/

namespace Flappy

/-- `GRAVITY` (px/frame², source value 0.08). -/
def GRAVITY : ℚ := 2/25

/-- `FLAP_VELOCITY` (px/frame, source value -3.5). -/
def FLAP_VELOCITY : ℚ := -7/2

/-- `PIPE_SPAWN_INTERVAL` (ms). -/
def PIPE_SPAWN_INTERVAL : ℚ := 1600

/-- `GROUND_HEIGHT` (px). -/
def GROUND_HEIGHT : ℚ := 112

/-- `LOGICAL_WIDTH` (px). -/
def LOGICAL_WIDTH : ℚ := 400

/-- `LOGICAL_HEIGHT` (px). -/
def LOGICAL_HEIGHT : ℚ := 600

/-- `BIRD_X` (px), the body's fixed horizontal position. -/
def BIRD_X : ℚ := 100

/-- `PIPE_WIDTH` (px). -/
def PIPE_WIDTH : ℚ := 80

/-- `PIPE_MIN_Y` (px), minimum top-pipe height / gap clearance from ceiling. -/
def PIPE_MIN_Y : ℚ := 60

/-- `MAX_POOL`, capacity of the obstacle-pair pool. -/
def MAX_POOL : ℕ := 8

/-- A difficulty preset: the two live-bound config values it selects. -/
structure Mode where
  pipeGap : ℚ
  pipeVelocity : ℚ
deriving DecidableEq

/-- `EASY_MODE` preset (gap 180, speed 2.2). -/
def EASY_MODE : Mode := ⟨180, 11/5⟩

/-- `NORMAL_MODE` preset (gap 150, speed 2.5). -/
def NORMAL_MODE : Mode := ⟨150, 5/2⟩

/-- The session state enum `State` = {Menu, Playing, GameOver, Paused}. -/
inductive GState where
  | Menu
  | Playing
  | GameOver
  | Paused
deriving DecidableEq

/-- The controlled body (`bird` record of the source). -/
structure Bird where
  x : ℚ
  y : ℚ
  radius : ℚ
  vy : ℚ
  angle : ℚ
  wingPhase : ℕ
  wingTimer : ℚ
  alive : Bool
deriving DecidableEq

/-- An obstacle-pair pool slot: `{ x, gapY, scored, active }`. -/
structure PipePair where
  x : ℚ
  gapY : ℚ
  scored : Bool
  active : Bool
deriving DecidableEq

/-- `createPipePair()`: the pre-allocated (inactive) slot contents. -/
def createPipePair : PipePair :=
  { x := LOGICAL_WIDTH + PIPE_WIDTH, gapY := 260, scored := false, active := false }

/-- A death-explosion particle. -/
structure Particle where
  x : ℚ
  y : ℚ
  vx : ℚ
  vy : ℚ
  life : ℚ
  age : ℚ
  size : ℚ
deriving DecidableEq

/-- The randomized attributes `spawnExplosion` draws for one particle
(velocity, lifetime, size); supplied by the randomness oracle. -/
structure PartSpec where
  vx : ℚ
  vy : ℚ
  life : ℚ
  size : ℚ
deriving DecidableEq

/-- The whole mutable module state of the source that the core reads or
writes: session state, timers, scores, the body, the pipe pool, the list
of indices of pairs ever activated (`activePipes` holds references into
the pool; we model references as pool indices), particles, the ground
scroll offset, the autopilot flag and its last-flap wall-clock time, and
the two live-bound config values the difficulty presets select. -/
structure Game where
  gameState : GState
  spawnTimer : ℚ
  score : ℕ
  highScore : ℕ
  bird : Bird
  pipePool : List PipePair
  activePipes : List ℕ
  particles : List Particle
  groundOffset : ℚ
  aiEnabled : Bool
  aiLastFlapTime : ℚ
  pipeGap : ℚ
  pipeVelocity : ℚ
deriving DecidableEq

/-- `acquirePipePair()`: index of the first inactive slot, else slot 0. -/
def acquireIdx (pool : List PipePair) : ℕ :=
  match pool.findIdx? (fun p => !p.active) with
  | some i => i
  | none => 0

/-- `minCenter` bound of `spawnPipePair`:
`Math.max(PIPE_MIN_Y + PIPE_GAP * 0.5, 80)`. -/
def minCenter (gap : ℚ) : ℚ := max (PIPE_MIN_Y + gap * (1/2)) 80

/-- `maxCenter` bound of `spawnPipePair`:
`LOGICAL_HEIGHT - GROUND_HEIGHT - PIPE_MIN_Y - PIPE_GAP * 0.5`. -/
def maxCenter (gap : ℚ) : ℚ :=
  LOGICAL_HEIGHT - GROUND_HEIGHT - PIPE_MIN_Y - gap * (1/2)

/-- `spawnPipePair()`, with the `Math.random()` draw `r` passed in:
acquires a slot, repositions it just past the right edge, draws the
gap center `Math.floor(minCenter + r * (maxCenter - minCenter))`,
clears `scored`, marks `active`, and records the slot in `activePipes`
if not already there. -/
def spawnPipePair (r : ℚ) (s : Game) : Game :=
  let i := acquireIdx s.pipePool
  let pair : PipePair :=
    { x := LOGICAL_WIDTH + PIPE_WIDTH
      gapY := (Int.floor (minCenter s.pipeGap +
        r * (maxCenter s.pipeGap - minCenter s.pipeGap)) : ℤ)
      scored := false
      active := true }
  { s with
    pipePool := s.pipePool.set i pair
    activePipes :=
      if i ∈ s.activePipes then s.activePipes else s.activePipes ++ [i] }

/-- `resetWorld()`: zero score and timers, deactivate every pool slot,
empty `activePipes`, put the body back at its canonical start pose, and
clear the particle list. -/
def resetWorld (s : Game) : Game :=
  { s with
    score := 0
    spawnTimer := 0
    groundOffset := 0
    pipePool := s.pipePool.map (fun p => { p with active := false })
    activePipes := []
    bird := { s.bird with
      x := BIRD_X, y := LOGICAL_HEIGHT * (4/10), vy := 0, angle := 0
      alive := true, wingPhase := 0, wingTimer := 0 }
    particles := [] }

/-- `startGame()`: reset the world and enter Playing. -/
def startGame (s : Game) : Game :=
  { resetWorld s with gameState := GState.Playing }

/-- `restartGame()`: reset the world and enter Playing. -/
def restartGame (s : Game) : Game :=
  { resetWorld s with gameState := GState.Playing }

/-- `endGame()`: enter GameOver, emit the explosion burst at the body's
position (randomized attributes from the oracle `burst`), and promote the
session score to the best score when it exceeds it. -/
def endGame (burst : List PartSpec) (s : Game) : Game :=
  { s with
    gameState := GState.GameOver
    particles := s.particles ++ burst.map (fun b =>
      { x := s.bird.x, y := s.bird.y, vx := b.vx, vy := b.vy
        life := b.life, age := 0, size := b.size })
    highScore := if s.score > s.highScore then s.score else s.highScore }

/-- `handleFlap()`: in Menu it starts the game; in GameOver it is
explicitly ignored; in Playing it sets the body's velocity to
`FLAP_VELOCITY` and snaps the tilt to -0.4; in Paused it falls through
with no effect. -/
def handleFlap (s : Game) : Game :=
  if s.gameState = GState.Menu then startGame s
  else if s.gameState = GState.GameOver then s
  else if s.gameState = GState.Playing then
    { s with bird := { s.bird with vy := FLAP_VELOCITY, angle := -2/5 } }
  else s

/-- The closed command set the input layer feeds the core (`handleFlap`,
the KeyP pause toggle, the KeyR restart). -/
inductive Command where
  | flap
  | pauseToggle
  | restart
deriving DecidableEq

/-- The input layer's dispatch (`onKeyDown` / pointer handler): flap goes
through `handleFlap`; KeyP toggles Playing/Paused and is otherwise a
no-op; KeyR calls `restartGame()` unconditionally. -/
def applyCommand (c : Command) (s : Game) : Game :=
  match c with
  | Command.flap => handleFlap s
  | Command.pauseToggle =>
    if s.gameState = GState.Playing then { s with gameState := GState.Paused }
    else if s.gameState = GState.Paused then { s with gameState := GState.Playing }
    else s
  | Command.restart => restartGame s

/-- `aiThinkAndMaybeFlap()`, with the wall clock `now` passed in: find the
first recorded pair still active whose trailing edge has not passed
`BIRD_X - 5`; target its gap center, else 60% of field height; rate-limit
to one flap per 160 ms; never flap within 80 px of the ceiling; project
10 frames ahead under gravity and flap when not strongly rising and the
projection overshoots the target by more than the 10 px hysteresis. -/
def aiThinkAndMaybeFlap (now : ℚ) (s : Game) : Game :=
  let nextIdx := s.activePipes.find? (fun i =>
    let p := s.pipePool.getD i createPipePair
    p.active && decide (BIRD_X - 5 < p.x + PIPE_WIDTH))
  let targetY : ℚ :=
    match nextIdx with
    | some i => (s.pipePool.getD i createPipePair).gapY
    | none => LOGICAL_HEIGHT * (6/10)
  if now - s.aiLastFlapTime < 160 then s
  else if s.bird.y < 80 then s
  else
    let projectedY := s.bird.y + s.bird.vy * 10 + (1/2) * GRAVITY * 10 * 10
    let nearlyRising := s.bird.vy < -(1/2)
    if ¬nearlyRising ∧ projectedY > targetY + 10 then
      { s with
        bird := { s.bird with vy := FLAP_VELOCITY, angle := -2/5 }
        aiLastFlapTime := now }
    else s

/-- `circleRectCollision(cx, cy, cr, rx, ry, rw, rh)`: clamp the circle
center to the rectangle to find the closest point, then compare squared
distance against squared radius. -/
def circleRectCollision (cx cy cr rx ry rw rh : ℚ) : Bool :=
  let closestX := max rx (min cx (rx + rw))
  let closestY := max ry (min cy (ry + rh))
  let dx := cx - closestX
  let dy := cy - closestY
  decide (dx * dx + dy * dy ≤ cr * cr)

/-- The body-physics block of `update`: gravity on velocity, velocity on
position, exponential tilt easing toward the clamped velocity-derived
target angle, and the 100 ms wing-phase cadence. -/
def birdPhysics (dt : ℚ) (b : Bird) : Bird :=
  let vy := b.vy + GRAVITY
  let y := b.y + vy
  let targetAngle := max (-(1/2)) (min (7/5) (vy / 10))
  let angle := b.angle + (targetAngle - b.angle) * (3/20)
  let wingTimer := b.wingTimer + dt
  if wingTimer ≥ 100 then
    { b with vy := vy, y := y, angle := angle, wingTimer := 0
             wingPhase := (b.wingPhase + 1) % 3 }
  else
    { b with vy := vy, y := y, angle := angle, wingTimer := wingTimer }

/-- One iteration of `update`'s pipe loop on the pair at pool index `i`:
skip inactive slots; move the pair left by the pipe velocity; score it
when unscored and its center `x + PIPE_WIDTH/2` is strictly left of the
body; then test the two rectangles (above and below the gap) against the
body and end the game on a hit (second component `true` = the loop's
early `return`); finally deactivate the pair once fully off-screen. -/
def pipeStep (burst : List PartSpec) (i : ℕ) (s : Game) : Game × Bool :=
  let p := s.pipePool.getD i createPipePair
  if ¬p.active then (s, false)
  else
    let px := p.x - s.pipeVelocity
    let scoresNow := ¬p.scored ∧ px + PIPE_WIDTH / 2 < s.bird.x
    let p1 : PipePair :=
      { p with x := px, scored := p.scored || decide (px + PIPE_WIDTH / 2 < s.bird.x) }
    let s1 := { s with
      pipePool := s.pipePool.set i p1
      score := if scoresNow then s.score + 1 else s.score }
    let topH := p1.gapY - s.pipeGap / 2
    let botY := p1.gapY + s.pipeGap / 2
    let botH := LOGICAL_HEIGHT - GROUND_HEIGHT - botY
    if circleRectCollision s1.bird.x s1.bird.y s1.bird.radius px 0 PIPE_WIDTH topH
        || circleRectCollision s1.bird.x s1.bird.y s1.bird.radius px botY PIPE_WIDTH botH then
      (endGame burst s1, true)
    else if px + PIPE_WIDTH < -10 then
      ({ s1 with pipePool := s1.pipePool.set i { p1 with active := false } }, false)
    else (s1, false)

/-- `update`'s pipe loop over the recorded pairs, with the early return
on a lethal hit. -/
def pipesLoop (burst : List PartSpec) : List ℕ → Game → Game × Bool
  | [], s => (s, false)
  | i :: rest, s =>
    let r := pipeStep burst i s
    if r.2 then (r.1, true) else pipesLoop burst rest r.1

/-- `scrollBackground(dt)` (ground offset; the decorative cloud layer is
out of the core). -/
def scrollBackground (dt : ℚ) (s : Game) : Game :=
  { s with groundOffset := s.groundOffset + s.pipeVelocity * (dt / (1000/60)) }

/-- One particle step of `updateParticles`: age, move, gravity. -/
def particleStep (dt : ℚ) (p : Particle) : Particle :=
  { p with age := p.age + dt, x := p.x + p.vx, y := p.y + p.vy, vy := p.vy + 3/25 }

/-- `updateParticles(dt)`: advance every particle and drop the expired. -/
def updateParticles (dt : ℚ) (ps : List Particle) : List Particle :=
  (ps.map (particleStep dt)).filter (fun p => decide (p.age < p.life))

/-- The time-delta clamp at the top of `update`: `Math.min(dtMs, 32)`. -/
def clampDt (dtMs : ℚ) : ℚ := min dtMs 32

/-- The spawn-timer block of `update`: accumulate `dt`; on reaching the
interval, subtract the interval (not reset) and spawn. -/
def spawnStage (dt r : ℚ) (s : Game) : Game :=
  let s1 := { s with spawnTimer := s.spawnTimer + dt }
  if s1.spawnTimer ≥ PIPE_SPAWN_INTERVAL then
    spawnPipePair r { s1 with spawnTimer := s1.spawnTimer - PIPE_SPAWN_INTERVAL }
  else s1

/-- The tail of `update` reached when no lethal event fired this frame
(also the whole of the non-Playing branch): background scroll and
particle decay. -/
def tailStage (dt : ℚ) (s : Game) : Game :=
  let s1 := scrollBackground dt s
  { s1 with particles := updateParticles dt s1.particles }

/-- The Playing-path of `update` after the autopilot has run: body
physics, the lethal ceiling check (clamp, zero velocity, end game), the
lethal ground check (clamp, end game), the spawn timer, the pipe loop
(with its early return on death), then background and particles. -/
def playingFrame (dt r : ℚ) (burst : List PartSpec) (s : Game) : Game :=
  let sb := { s with bird := birdPhysics dt s.bird }
  if sb.bird.y - sb.bird.radius < 0 then
    endGame burst { sb with bird := { sb.bird with y := sb.bird.radius, vy := 0 } }
  else if sb.bird.y + sb.bird.radius ≥ LOGICAL_HEIGHT - GROUND_HEIGHT then
    endGame burst
      { sb with bird := { sb.bird with
          y := LOGICAL_HEIGHT - GROUND_HEIGHT - sb.bird.radius } }
  else
    let sc := spawnStage dt r sb
    let pr := pipesLoop burst sc.activePipes sc
    if pr.2 then pr.1 else tailStage dt pr.1

/-- `update(dtMs)`, with the wall clock `now` and the randomness oracle
(`r` for the spawn draw, `burst` for a death explosion) passed in.
Mirrors the source's order: clamp `dt`; freeze gameplay outside Playing
(only background and particles tick); run the autopilot when enabled;
then the Playing frame body. -/
def update (dtMs now r : ℚ) (burst : List PartSpec) (s : Game) : Game :=
  let dt := clampDt dtMs
  if s.gameState = GState.Paused ∨ s.gameState = GState.Menu ∨
      s.gameState = GState.GameOver then
    tailStage dt s
  else
    playingFrame dt r burst (if s.aiEnabled then aiThinkAndMaybeFlap now s else s)

/-- The body state just after the physics-integration block of a Playing
frame (autopilot included), before the boundary checks. -/
def integratedBird (dtMs now : ℚ) (s : Game) : Bird :=
  birdPhysics (clampDt dtMs)
    (if s.aiEnabled then aiThinkAndMaybeFlap now s else s).bird

/-- A pool slot's gap center lies within the spawn bounds for the given
gap configuration, whenever the slot is active. -/
def pipeInRange (gap : ℚ) (p : PipePair) : Prop :=
  p.active = true → minCenter gap ≤ p.gapY ∧ p.gapY ≤ maxCenter gap

/-- A body at the canonical start pose, used for concrete scenarios. -/
def demoBird : Bird :=
  { x := 100, y := 240, radius := 12, vy := 0, angle := 0
    wingPhase := 0, wingTimer := 0, alive := true }

/-- A concrete whole-game state in the Menu, with a freshly allocated
pool, normal difficulty. -/
def menuDemo : Game :=
  { gameState := GState.Menu
    spawnTimer := 0
    score := 0
    highScore := 0
    bird := demoBird
    pipePool := [createPipePair, createPipePair, createPipePair, createPipePair,
      createPipePair, createPipePair, createPipePair, createPipePair]
    activePipes := []
    particles := []
    groundOffset := 0
    aiEnabled := false
    aiLastFlapTime := 0
    pipeGap := 150
    pipeVelocity := 5/2 }

/-- The same concrete state, Playing. -/
def playDemo : Game := { menuDemo with gameState := GState.Playing }

/-- The same concrete state, GameOver. -/
def overDemo : Game := { menuDemo with gameState := GState.GameOver }

/-- A concrete Playing state whose single active pair is about to have
its center pass the body on the same frame on which the body overlaps
its upper rectangle: pair at x = 61 (center 98.5 after the 2.5 px move),
body at (100, 30) inside the upper rectangle. -/
def killScoreDemo : Game :=
  { playDemo with
    bird := { demoBird with y := 30 }
    pipePool := [{ x := 61, gapY := 260, scored := false, active := true },
      createPipePair, createPipePair, createPipePair,
      createPipePair, createPipePair, createPipePair, createPipePair]
    activePipes := [0] }

/-- A concrete Playing state whose single active pair is about to have
its center pass the body with no collision (gap center level with the
body). -/
def scoreDemo : Game :=
  { playDemo with
    pipePool := [{ x := 61, gapY := 240, scored := false, active := true },
      createPipePair, createPipePair, createPipePair,
      createPipePair, createPipePair, createPipePair, createPipePair]
    activePipes := [0] }

/-- A concrete Playing state whose body is just under the ceiling, so the
next integrated position breaches it. -/
def ceilDemo : Game := { playDemo with bird := { demoBird with y := 5 } }

/-- A concrete Playing state whose body is just above the ground line, so
the next integrated position reaches it. -/
def groundDemo : Game := { playDemo with bird := { demoBird with y := 480 } }

/-! ### Structural helper lemmas -/

/-- `pipeStep` never touches the body. -/
theorem pipeStep_bird (burst : List PartSpec) (i : ℕ) (s : Game) :
    (pipeStep burst i s).1.bird = s.bird := by
  unfold pipeStep
  dsimp only
  split
  · rfl
  · split
    · rfl
    · split <;> rfl

/-- `pipeStep` never changes the recorded pair list, the config, or the
autopilot fields. -/
theorem pipeStep_frame (burst : List PartSpec) (i : ℕ) (s : Game) :
    (pipeStep burst i s).1.activePipes = s.activePipes ∧
    (pipeStep burst i s).1.pipeGap = s.pipeGap ∧
    (pipeStep burst i s).1.pipeVelocity = s.pipeVelocity := by
  unfold pipeStep
  dsimp only
  split
  · exact ⟨rfl, rfl, rfl⟩
  · split
    · exact ⟨rfl, rfl, rfl⟩
    · split <;> exact ⟨rfl, rfl, rfl⟩

/-- When `pipeStep` reports a hit, it has ended the session. -/
theorem pipeStep_died (burst : List PartSpec) (i : ℕ) (s : Game) :
    (pipeStep burst i s).2 = true →
    (pipeStep burst i s).1.gameState = GState.GameOver := by
  unfold pipeStep
  dsimp only
  split
  · intro h
    exact absurd h (by simp)
  · split
    · intro _
      rfl
    · split <;> · intro h
                  exact absurd h (by simp)

/-- When `pipeStep` reports no hit, the session state is untouched. -/
theorem pipeStep_survived (burst : List PartSpec) (i : ℕ) (s : Game) :
    (pipeStep burst i s).2 = false →
    (pipeStep burst i s).1.gameState = s.gameState := by
  unfold pipeStep
  dsimp only
  split
  · intro _
    rfl
  · split
    · intro h
      exact absurd h (by simp)
    · split <;> · intro _
                  rfl

/-- The pipe loop never touches the body. -/
theorem pipesLoop_bird (burst : List PartSpec) :
    ∀ (l : List ℕ) (s : Game), (pipesLoop burst l s).1.bird = s.bird
  | [], _ => rfl
  | i :: rest, s => by
    unfold pipesLoop
    dsimp only
    split
    · exact pipeStep_bird burst i s
    · rw [pipesLoop_bird burst rest _, pipeStep_bird burst i s]

/-- When the pipe loop reports a hit, the session has ended. -/
theorem pipesLoop_died (burst : List PartSpec) :
    ∀ (l : List ℕ) (s : Game), (pipesLoop burst l s).2 = true →
      (pipesLoop burst l s).1.gameState = GState.GameOver
  | [], _, h => absurd h (by simp [pipesLoop])
  | i :: rest, s, h => by
    unfold pipesLoop at *
    dsimp only at *
    by_cases hd : (pipeStep burst i s).2 = true
    · rw [if_pos hd]
      exact pipeStep_died burst i s hd
    · rw [if_neg hd] at h ⊢
      exact pipesLoop_died burst rest _ h

/-- When the pipe loop reports no hit, the session state is untouched. -/
theorem pipesLoop_survived (burst : List PartSpec) :
    ∀ (l : List ℕ) (s : Game), (pipesLoop burst l s).2 = false →
      (pipesLoop burst l s).1.gameState = s.gameState
  | [], _, _ => rfl
  | i :: rest, s, h => by
    unfold pipesLoop at *
    dsimp only at *
    by_cases hd : (pipeStep burst i s).2 = true
    · rw [if_pos hd] at h
      exact absurd h (by simp)
    · rw [if_neg hd] at h ⊢
      rw [pipesLoop_survived burst rest _ h]
      exact pipeStep_survived burst i s (by simpa using hd)

/-- The spawn stage never touches the body. -/
theorem spawnStage_bird (dt r : ℚ) (s : Game) :
    (spawnStage dt r s).bird = s.bird := by
  unfold spawnStage spawnPipePair
  dsimp only
  split <;> rfl

/-- The spawn stage never changes the session state or the config. -/
theorem spawnStage_frame (dt r : ℚ) (s : Game) :
    (spawnStage dt r s).gameState = s.gameState ∧
    (spawnStage dt r s).pipeGap = s.pipeGap := by
  unfold spawnStage spawnPipePair
  dsimp only
  split <;> exact ⟨rfl, rfl⟩

/-- The background/particle tail never touches the body or the session
state. -/
theorem tailStage_frame (dt : ℚ) (s : Game) :
    (tailStage dt s).bird = s.bird ∧ (tailStage dt s).gameState = s.gameState ∧
    (tailStage dt s).pipePool = s.pipePool := by
  exact ⟨rfl, rfl, rfl⟩

/-- The autopilot never changes the session state, the pool, the recorded
pairs, or the config. -/
theorem aiThink_frame (now : ℚ) (s : Game) :
    (aiThinkAndMaybeFlap now s).gameState = s.gameState ∧
    (aiThinkAndMaybeFlap now s).pipePool = s.pipePool ∧
    (aiThinkAndMaybeFlap now s).activePipes = s.activePipes ∧
    (aiThinkAndMaybeFlap now s).pipeGap = s.pipeGap := by
  unfold aiThinkAndMaybeFlap
  dsimp only
  split
  · exact ⟨rfl, rfl, rfl, rfl⟩
  · split
    · exact ⟨rfl, rfl, rfl, rfl⟩
    · split <;> exact ⟨rfl, rfl, rfl, rfl⟩

/-! ### C1: a pair is scored exactly once, at center passage -/

/-- C1.  In the per-pair frame step: an active, not-yet-scored pair whose
just-updated center `x + PIPE_WIDTH/2` is strictly left of the body's x
yields exactly one score increment and gets its scored flag set; an
already-scored pair never increments the score again (its flag stays
set); and a pair whose center has not passed never increments the
score. -/
theorem scored_exactly_once_per_pair (burst : List PartSpec) (i : ℕ) (s : Game)
    (hlen : i < s.pipePool.length)
    (hact : (s.pipePool.getD i createPipePair).active = true) :
    ((s.pipePool.getD i createPipePair).scored = false →
      (s.pipePool.getD i createPipePair).x - s.pipeVelocity + PIPE_WIDTH / 2 < s.bird.x →
      (pipeStep burst i s).1.score = s.score + 1 ∧
      ((pipeStep burst i s).1.pipePool.getD i createPipePair).scored = true) ∧
    ((s.pipePool.getD i createPipePair).scored = true →
      (pipeStep burst i s).1.score = s.score ∧
      ((pipeStep burst i s).1.pipePool.getD i createPipePair).scored = true) ∧
    (¬ (s.pipePool.getD i createPipePair).x - s.pipeVelocity + PIPE_WIDTH / 2 < s.bird.x →
      (pipeStep burst i s).1.score = s.score) := by
  unfold pipeStep
  dsimp only
  rw [if_neg (not_not_intro hact)]
  refine ⟨fun hsc hlt => ?_, fun hsc => ?_, fun hge => ?_⟩
  · have hcond : (¬(s.pipePool.getD i createPipePair).scored = true ∧
        (s.pipePool.getD i createPipePair).x - s.pipeVelocity + PIPE_WIDTH / 2 < s.bird.x) :=
      ⟨by rw [hsc]; exact Bool.false_ne_true, hlt⟩
    rw [if_pos hcond]
    split
    · refine ⟨rfl, ?_⟩
      show ((s.pipePool.set i _).getD i createPipePair).scored = true
      rw [List.getD_eq_getElem _ _ (by simpa using hlen), List.getElem_set_self]
      show ((s.pipePool.getD i createPipePair).scored || _) = true
      rw [hsc, decide_eq_true hlt]
      rfl
    · split
      · refine ⟨rfl, ?_⟩
        show (((s.pipePool.set i _).set i _).getD i createPipePair).scored = true
        rw [List.set_set, List.getD_eq_getElem _ _ (by simpa using hlen),
          List.getElem_set_self]
        show ((s.pipePool.getD i createPipePair).scored || _) = true
        rw [hsc, decide_eq_true hlt]
        rfl
      · refine ⟨rfl, ?_⟩
        show ((s.pipePool.set i _).getD i createPipePair).scored = true
        rw [List.getD_eq_getElem _ _ (by simpa using hlen), List.getElem_set_self]
        show ((s.pipePool.getD i createPipePair).scored || _) = true
        rw [hsc, decide_eq_true hlt]
        rfl
  · have hcond : ¬(¬(s.pipePool.getD i createPipePair).scored = true ∧
        (s.pipePool.getD i createPipePair).x - s.pipeVelocity + PIPE_WIDTH / 2 < s.bird.x) :=
      fun h => h.1 hsc
    rw [if_neg hcond]
    split
    · refine ⟨rfl, ?_⟩
      show ((s.pipePool.set i _).getD i createPipePair).scored = true
      rw [List.getD_eq_getElem _ _ (by simpa using hlen), List.getElem_set_self]
      show ((s.pipePool.getD i createPipePair).scored || _) = true
      rw [hsc, Bool.true_or]
    · split
      · refine ⟨rfl, ?_⟩
        show (((s.pipePool.set i _).set i _).getD i createPipePair).scored = true
        rw [List.set_set, List.getD_eq_getElem _ _ (by simpa using hlen),
          List.getElem_set_self]
        show ((s.pipePool.getD i createPipePair).scored || _) = true
        rw [hsc, Bool.true_or]
      · refine ⟨rfl, ?_⟩
        show ((s.pipePool.set i _).getD i createPipePair).scored = true
        rw [List.getD_eq_getElem _ _ (by simpa using hlen), List.getElem_set_self]
        show ((s.pipePool.getD i createPipePair).scored || _) = true
        rw [hsc, Bool.true_or]
  · have hcond : ¬(¬(s.pipePool.getD i createPipePair).scored = true ∧
        (s.pipePool.getD i createPipePair).x - s.pipeVelocity + PIPE_WIDTH / 2 < s.bird.x) :=
      fun h => hge h.2
    rw [if_neg hcond]
    split
    · rfl
    · split
      · rfl
      · rfl

/-- C1, witness at the concrete state `scoreDemo`: slot 0's pair scores
this frame and its flag is set. -/
theorem scored_exactly_once_per_pair_witness :
    (pipeStep [] 0 scoreDemo).1.score = scoreDemo.score + 1 ∧
    ((pipeStep [] 0 scoreDemo).1.pipePool.getD 0 createPipePair).scored = true :=
  (scored_exactly_once_per_pair [] 0 scoreDemo (by decide) rfl).1 rfl
    (by norm_num [scoreDemo, playDemo, menuDemo, demoBird, PIPE_WIDTH])

/-! ### C2: ordering of scoring and collision within a frame -/

/-- C2 counterexample.  In `killScoreDemo` the single active pair both
kills the body and has its center pass the body's x on the same frame;
because the loop evaluates scoring before the collision test, the frame
ends in GameOver *and* the score was incremented — contradicting the
claim that a pair that kills the body never awards a point that frame. -/
theorem killing_pair_scores_counterexample :
    (update 16 0 0 [] killScoreDemo).gameState = GState.GameOver ∧
    (update 16 0 0 [] killScoreDemo).score = killScoreDemo.score + 1 := by
  norm_num [update, playingFrame, clampDt, killScoreDemo, playDemo, menuDemo,
    demoBird, birdPhysics, spawnStage, pipesLoop, pipeStep, circleRectCollision,
    endGame, tailStage, scrollBackground, updateParticles, createPipePair,
    GRAVITY, PIPE_WIDTH, LOGICAL_HEIGHT, GROUND_HEIGHT, PIPE_SPAWN_INTERVAL]
  simp

/-- C2 amended.  Within a Playing frame the per-pair processing order is
advance, then scoring, then collision: an active unscored pair whose
just-updated center is strictly behind the body and which collides with
the body ends the session *and still awards the score point* on that same
frame. -/
theorem killing_pair_still_scores (burst : List PartSpec) (i : ℕ) (s : Game)
    (hact : (s.pipePool.getD i createPipePair).active = true)
    (hsc : (s.pipePool.getD i createPipePair).scored = false)
    (hlt : (s.pipePool.getD i createPipePair).x - s.pipeVelocity + PIPE_WIDTH / 2
      < s.bird.x)
    (hhit : (circleRectCollision s.bird.x s.bird.y s.bird.radius
        ((s.pipePool.getD i createPipePair).x - s.pipeVelocity) 0 PIPE_WIDTH
        ((s.pipePool.getD i createPipePair).gapY - s.pipeGap / 2) ||
      circleRectCollision s.bird.x s.bird.y s.bird.radius
        ((s.pipePool.getD i createPipePair).x - s.pipeVelocity)
        ((s.pipePool.getD i createPipePair).gapY + s.pipeGap / 2) PIPE_WIDTH
        (LOGICAL_HEIGHT - GROUND_HEIGHT -
          ((s.pipePool.getD i createPipePair).gapY + s.pipeGap / 2))) = true) :
    (pipeStep burst i s).2 = true ∧
    (pipeStep burst i s).1.gameState = GState.GameOver ∧
    (pipeStep burst i s).1.score = s.score + 1 := by
  unfold pipeStep
  dsimp only
  rw [if_neg (not_not_intro hact), if_pos hhit]
  refine ⟨rfl, rfl, ?_⟩
  show (if (¬(s.pipePool.getD i createPipePair).scored = true ∧
      (s.pipePool.getD i createPipePair).x - s.pipeVelocity + PIPE_WIDTH / 2
        < s.bird.x) then s.score + 1 else s.score) = s.score + 1
  rw [if_pos ⟨by rw [hsc]; exact Bool.false_ne_true, hlt⟩]

/-- C2 amended, witness at `killScoreDemo`. -/
theorem killing_pair_still_scores_witness :
    (pipeStep [] 0 killScoreDemo).2 = true ∧
    (pipeStep [] 0 killScoreDemo).1.gameState = GState.GameOver ∧
    (pipeStep [] 0 killScoreDemo).1.score = killScoreDemo.score + 1 :=
  killing_pair_still_scores [] 0 killScoreDemo rfl rfl
    (by norm_num [killScoreDemo, playDemo, menuDemo, demoBird, PIPE_WIDTH])
    (by norm_num [killScoreDemo, playDemo, menuDemo, demoBird,
      circleRectCollision, PIPE_WIDTH, LOGICAL_HEIGHT, GROUND_HEIGHT])

/-! ### C3: the per-frame time-delta clamp -/

/-- C3 counterexample.  The clamp is `Math.min(dtMs, 32)` with no lower
bound: a negative delta passes through, contradicting the claim that the
clamped delta is never negative. -/
theorem clampDt_negative_counterexample : clampDt (-1) = -1 ∧ clampDt (-1) < 0 := by
  constructor
  · rw [clampDt, min_eq_left (by norm_num)]
  · rw [clampDt, min_eq_left (by norm_num)]
    norm_num

/-- C3 amended.  The delta used by the frame update is always at most
32 ms, and it is nonnegative whenever the incoming delta is; a negative
incoming delta is passed through unclamped. -/
theorem clampDt_bounds (dtMs : ℚ) :
    clampDt dtMs ≤ 32 ∧ (0 ≤ dtMs → 0 ≤ clampDt dtMs) :=
  ⟨min_le_right _ _, fun h => le_min h (by norm_num)⟩

/-- C3 amended, witness at dtMs = 40. -/
theorem clampDt_bounds_witness :
    (0 : ℚ) ≤ 40 ∧ 0 ≤ clampDt 40 ∧ clampDt 40 ≤ 32 :=
  ⟨by norm_num, (clampDt_bounds 40).2 (by norm_num), (clampDt_bounds 40).1⟩

/-! ### C4: command validity per state -/

/-- C4 counterexample.  The restart command (KeyR) is dispatched
unconditionally: issued in the Menu — where the claim says it is invalid
and must be a no-op — it resets the world and enters Playing, changing
the session state. -/
theorem restart_in_menu_not_noop :
    (applyCommand Command.restart menuDemo).gameState = GState.Playing ∧
    ¬ applyCommand Command.restart menuDemo = menuDemo :=
  ⟨rfl, fun h => absurd (congrArg Game.gameState h) (by decide)⟩

/-- C4 amended.  The restart command is the only command that moves
GameOver to Playing — flap and pause-toggle are no-ops in GameOver, as is
flap in Paused and pause-toggle in Menu — but restart is *not* gated on
GameOver: issued in any state it resets the session and enters Playing
(so restart in Menu or while Playing is not a no-op). -/
theorem restart_only_exit_from_gameover (s : Game) :
    (s.gameState = GState.GameOver →
      applyCommand Command.flap s = s ∧
      applyCommand Command.pauseToggle s = s) ∧
    (∀ c : Command, s.gameState = GState.GameOver →
      (applyCommand c s).gameState = GState.Playing → c = Command.restart) ∧
    (s.gameState = GState.Paused → applyCommand Command.flap s = s) ∧
    (s.gameState = GState.Menu → applyCommand Command.pauseToggle s = s) ∧
    (applyCommand Command.restart s).gameState = GState.Playing := by
  refine ⟨fun h => ?_, fun c h hPl => ?_, fun h => ?_, fun h => ?_, rfl⟩
  · constructor
    · show handleFlap s = s
      unfold handleFlap
      rw [h]
      rfl
    · show (if s.gameState = GState.Playing then _ else _) = s
      rw [h]
      rfl
  · cases c
    · exfalso
      have hf : applyCommand Command.flap s = s := by
        show handleFlap s = s
        unfold handleFlap
        rw [h]
        rfl
      rw [hf, h] at hPl
      exact absurd hPl (by decide)
    · exfalso
      have hp : applyCommand Command.pauseToggle s = s := by
        show (if s.gameState = GState.Playing then _ else _) = s
        rw [h]
        rfl
      rw [hp, h] at hPl
      exact absurd hPl (by decide)
    · rfl
  · show handleFlap s = s
    unfold handleFlap
    rw [h]
    rfl
  · show (if s.gameState = GState.Playing then _ else _) = s
    rw [h]
    rfl

/-- C4 amended, witness at the concrete GameOver state `overDemo`. -/
theorem restart_only_exit_from_gameover_witness :
    applyCommand Command.flap overDemo = overDemo ∧
    applyCommand Command.pauseToggle overDemo = overDemo ∧
    (applyCommand Command.restart overDemo).gameState = GState.Playing :=
  ⟨((restart_only_exit_from_gameover overDemo).1 rfl).1,
   ((restart_only_exit_from_gameover overDemo).1 rfl).2,
   (restart_only_exit_from_gameover overDemo).2.2.2.2⟩

/-! ### C5: the flap impulse -/

/-- C5.  While Playing, a flap sets the body's vertical velocity to
`FLAP_VELOCITY` and snaps its angle to the fixed upward tilt -0.4,
leaving everything else (including the session state) unchanged; while
GameOver, the same event leaves the whole state — velocity, angle and
session state included — unchanged. -/
theorem flap_impulse_spec (s : Game) :
    (s.gameState = GState.Playing →
      handleFlap s =
        { s with bird := { s.bird with vy := FLAP_VELOCITY, angle := -2/5 } }) ∧
    (s.gameState = GState.GameOver → handleFlap s = s) := by
  constructor
  · intro h
    unfold handleFlap
    rw [h]
    rfl
  · intro h
    unfold handleFlap
    rw [h]
    rfl

/-- C5, witness at the concrete states `playDemo` and `overDemo`. -/
theorem flap_impulse_spec_witness :
    handleFlap playDemo =
      { playDemo with
        bird := { playDemo.bird with vy := FLAP_VELOCITY, angle := -2/5 } } ∧
    handleFlap overDemo = overDemo :=
  ⟨(flap_impulse_spec playDemo).1 rfl, (flap_impulse_spec overDemo).2 rfl⟩

/-! ### C6: post-frame vertical bounds -/

/-- The spawn/pipes/tail part of a Playing frame never touches the body. -/
theorem frameTail_bird (dt r : ℚ) (burst : List PartSpec) (s : Game) :
    (if (pipesLoop burst (spawnStage dt r s).activePipes (spawnStage dt r s)).2 = true
      then (pipesLoop burst (spawnStage dt r s).activePipes (spawnStage dt r s)).1
      else tailStage dt
        (pipesLoop burst (spawnStage dt r s).activePipes (spawnStage dt r s)).1).bird
      = s.bird := by
  split
  · rw [pipesLoop_bird, spawnStage_bird]
  · rw [(tailStage_frame _ _).1, pipesLoop_bird, spawnStage_bird]

/-- In the Playing frame body, the post-frame vertical position is in
bounds or the session has ended. -/
theorem playingFrame_bounds (dt r : ℚ) (burst : List PartSpec) (t : Game) :
    ((playingFrame dt r burst t).bird.radius ≤ (playingFrame dt r burst t).bird.y ∧
      (playingFrame dt r burst t).bird.y ≤
        LOGICAL_HEIGHT - GROUND_HEIGHT - (playingFrame dt r burst t).bird.radius) ∨
    (playingFrame dt r burst t).gameState = GState.GameOver := by
  unfold playingFrame
  dsimp only
  split_ifs with h1 h2 h3
  · exact Or.inr rfl
  · exact Or.inr rfl
  · left
    rw [pipesLoop_bird, spawnStage_bird]
    dsimp only
    constructor
    · linarith [not_lt.mp h1]
    · linarith [lt_of_not_ge h2]
  · left
    rw [(tailStage_frame _ _).1, pipesLoop_bird, spawnStage_bird]
    dsimp only
    constructor
    · linarith [not_lt.mp h1]
    · linarith [lt_of_not_ge h2]

/-- C6.  After any Playing-state frame, the body's vertical position lies
within `[radius, fieldHeight - groundThickness - radius]`, or the session
transitioned to GameOver during that frame. -/
theorem body_in_bounds_or_gameover (dtMs now r : ℚ) (burst : List PartSpec)
    (s : Game) (h : s.gameState = GState.Playing) :
    ((update dtMs now r burst s).bird.radius ≤ (update dtMs now r burst s).bird.y ∧
      (update dtMs now r burst s).bird.y ≤
        LOGICAL_HEIGHT - GROUND_HEIGHT - (update dtMs now r burst s).bird.radius) ∨
    (update dtMs now r burst s).gameState = GState.GameOver := by
  unfold update
  dsimp only
  rw [h, if_neg (by decide)]
  exact playingFrame_bounds _ _ _ _

/-- C6, witness at the concrete Playing state `playDemo`. -/
theorem body_in_bounds_or_gameover_witness :
    ((update 16 0 0 [] playDemo).bird.radius ≤ (update 16 0 0 [] playDemo).bird.y ∧
      (update 16 0 0 [] playDemo).bird.y ≤
        LOGICAL_HEIGHT - GROUND_HEIGHT - (update 16 0 0 [] playDemo).bird.radius) ∨
    (update 16 0 0 [] playDemo).gameState = GState.GameOver :=
  body_in_bounds_or_gameover 16 0 0 [] playDemo rfl

/-! ### C9: start and restart perform the same reset -/

/-- C9.  `startGame` and `restartGame` are the same state transformation,
and from any state the result is the canonical fresh session: Playing,
zero score and spawn timer, every pool slot inactive, no recorded active
pairs, the body at its canonical start pose, and no particles. -/
theorem start_restart_same_reset (s : Game) :
    startGame s = restartGame s ∧
    (restartGame s).gameState = GState.Playing ∧
    (restartGame s).score = 0 ∧
    (restartGame s).spawnTimer = 0 ∧
    ((restartGame s).pipePool.all fun p => !p.active) = true ∧
    (restartGame s).activePipes = [] ∧
    (restartGame s).particles = [] ∧
    (restartGame s).bird.x = BIRD_X ∧
    (restartGame s).bird.y = LOGICAL_HEIGHT * (4/10) ∧
    (restartGame s).bird.vy = 0 ∧
    (restartGame s).bird.angle = 0 ∧
    (restartGame s).bird.alive = true := by
  refine ⟨rfl, rfl, rfl, rfl, ?_, rfl, rfl, rfl, rfl, rfl, rfl, rfl⟩
  simp only [restartGame, resetWorld, List.all_eq_true, List.mem_map]
  rintro x ⟨p, hp, rfl⟩
  rfl

/-! ### C10: velocity treatment at the two lethal boundaries -/

/-- C10.  The two lethal boundary checks treat velocity asymmetrically:
a ceiling breach clamps the body to `y = radius` and zeroes its vertical
velocity before ending the session, while a ground breach clamps to
`y = groundY - radius` but leaves the just-integrated vertical velocity
unchanged when the session ends. -/
theorem boundary_velocity_asymmetry (dtMs now r : ℚ) (burst : List PartSpec)
    (s : Game) (h : s.gameState = GState.Playing) :
    (((integratedBird dtMs now s).y - (integratedBird dtMs now s).radius < 0) →
      (update dtMs now r burst s).bird.y = (integratedBird dtMs now s).radius ∧
      (update dtMs now r burst s).bird.vy = 0 ∧
      (update dtMs now r burst s).gameState = GState.GameOver) ∧
    (¬((integratedBird dtMs now s).y - (integratedBird dtMs now s).radius < 0) →
      (integratedBird dtMs now s).y + (integratedBird dtMs now s).radius ≥
        LOGICAL_HEIGHT - GROUND_HEIGHT →
      (update dtMs now r burst s).bird.y =
        LOGICAL_HEIGHT - GROUND_HEIGHT - (integratedBird dtMs now s).radius ∧
      (update dtMs now r burst s).bird.vy = (integratedBird dtMs now s).vy ∧
      (update dtMs now r burst s).gameState = GState.GameOver) := by
  unfold update integratedBird
  dsimp only
  rw [h, if_neg (show ¬(GState.Playing = GState.Paused ∨ GState.Playing = GState.Menu ∨
    GState.Playing = GState.GameOver) from by decide)]
  unfold playingFrame
  dsimp only
  constructor
  · intro h1
    rw [if_pos h1]
    exact ⟨rfl, rfl, rfl⟩
  · intro h1 h2
    rw [if_neg h1, if_pos h2]
    exact ⟨rfl, rfl, rfl⟩

/-- C10, witness at the concrete states `ceilDemo` (ceiling breach) and
`groundDemo` (ground breach). -/
theorem boundary_velocity_asymmetry_witness :
    ((update 16 0 0 [] ceilDemo).bird.y = (integratedBird 16 0 ceilDemo).radius ∧
      (update 16 0 0 [] ceilDemo).bird.vy = 0 ∧
      (update 16 0 0 [] ceilDemo).gameState = GState.GameOver) ∧
    ((update 16 0 0 [] groundDemo).bird.y =
        LOGICAL_HEIGHT - GROUND_HEIGHT - (integratedBird 16 0 groundDemo).radius ∧
      (update 16 0 0 [] groundDemo).bird.vy = (integratedBird 16 0 groundDemo).vy ∧
      (update 16 0 0 [] groundDemo).gameState = GState.GameOver) :=
  ⟨(boundary_velocity_asymmetry 16 0 0 [] ceilDemo rfl).1
      (by norm_num [integratedBird, birdPhysics, clampDt, ceilDemo, playDemo,
        menuDemo, demoBird, GRAVITY]),
   (boundary_velocity_asymmetry 16 0 0 [] groundDemo rfl).2
      (by norm_num [integratedBird, birdPhysics, clampDt, groundDemo, playDemo,
        menuDemo, demoBird, GRAVITY])
      (by norm_num [integratedBird, birdPhysics, clampDt, groundDemo, playDemo,
        menuDemo, demoBird, GRAVITY, LOGICAL_HEIGHT, GROUND_HEIGHT])⟩

/-! ### C7: spawn bounds and the gap-center invariant -/

/-- `endGame` never touches the pool. -/
theorem endGame_pipePool (burst : List PartSpec) (s : Game) :
    (endGame burst s).pipePool = s.pipePool := rfl

/-- The drawn gap center `floor(minCenter + r * (maxCenter - minCenter))`
stays inside `[minCenter, maxCenter]` whenever the draw `r` is in `[0,1)`,
`minCenter` is an integer and the interval is nonempty. -/
theorem gapY_bounded (gap r : ℚ) (h0 : 0 ≤ r) (h1 : r < 1)
    (hz : ∃ z : ℤ, (z : ℚ) = minCenter gap)
    (hle : minCenter gap ≤ maxCenter gap) :
    minCenter gap ≤
      ((Int.floor (minCenter gap + r * (maxCenter gap - minCenter gap)) : ℤ) : ℚ) ∧
    ((Int.floor (minCenter gap + r * (maxCenter gap - minCenter gap)) : ℤ) : ℚ) ≤
      maxCenter gap := by
  obtain ⟨z, hz⟩ := hz
  have hnn : 0 ≤ r * (maxCenter gap - minCenter gap) :=
    mul_nonneg h0 (by linarith)
  constructor
  · have hzle : (z : ℚ) ≤ minCenter gap + r * (maxCenter gap - minCenter gap) := by
      rw [hz]
      linarith
    have h2 : ((z : ℤ) : ℚ) ≤
        ((Int.floor (minCenter gap + r * (maxCenter gap - minCenter gap)) : ℤ) : ℚ) :=
      by exact_mod_cast Int.le_floor.mpr hzle
    linarith [hz ▸ h2]
  · have hfl : ((Int.floor (minCenter gap + r * (maxCenter gap - minCenter gap)) : ℤ) : ℚ)
        ≤ minCenter gap + r * (maxCenter gap - minCenter gap) := Int.floor_le _
    have hub : r * (maxCenter gap - minCenter gap) ≤ 1 * (maxCenter gap - minCenter gap) :=
      mul_le_mul_of_nonneg_right (le_of_lt h1) (by linarith)
    linarith

/-- One pipe-loop iteration preserves the gap-center invariant: it only
shifts pairs horizontally, flags them scored, or deactivates them. -/
theorem pipeStep_pipeInRange (burst : List PartSpec) (i : ℕ) (g : ℚ) (s : Game)
    (h : ∀ p ∈ s.pipePool, pipeInRange g p) :
    ∀ p ∈ (pipeStep burst i s).1.pipePool, pipeInRange g p := by
  unfold pipeStep
  dsimp only
  split
  · exact h
  · next hact =>
    have hact' : (s.pipePool.getD i createPipePair).active = true := not_not.mp hact
    have hp : pipeInRange g (s.pipePool.getD i createPipePair) := by
      by_cases hi : i < s.pipePool.length
      · rw [List.getD_eq_getElem s.pipePool createPipePair (by simpa using hi)]
        exact h _ (List.getElem_mem _)
      · have hd : s.pipePool.getD i createPipePair = createPipePair :=
          List.getD_eq_default _ _ (by omega)
        rw [hd] at hact'
        exact absurd hact' (by decide)
    split
    · dsimp only [endGame]
      intro q hq
      rcases List.mem_or_eq_of_mem_set hq with hmem | rfl
      · exact h q hmem
      · exact fun _ => hp hact'
    · split
      · dsimp only
        intro q hq
        rw [List.set_set] at hq
        rcases List.mem_or_eq_of_mem_set hq with hmem | rfl
        · exact h q hmem
        · exact fun h2 => absurd h2 Bool.false_ne_true
      · dsimp only
        intro q hq
        rcases List.mem_or_eq_of_mem_set hq with hmem | rfl
        · exact h q hmem
        · exact fun _ => hp hact'

/-- The pipe loop preserves the gap-center invariant. -/
theorem pipesLoop_pipeInRange (burst : List PartSpec) (g : ℚ) :
    ∀ (l : List ℕ) (s : Game), (∀ p ∈ s.pipePool, pipeInRange g p) →
      ∀ p ∈ (pipesLoop burst l s).1.pipePool, pipeInRange g p
  | [], _, h => h
  | i :: rest, s, h => by
    unfold pipesLoop
    dsimp only
    by_cases hd : (pipeStep burst i s).2 = true
    · rw [if_pos hd]
      exact pipeStep_pipeInRange burst i g s h
    · rw [if_neg hd]
      exact pipesLoop_pipeInRange burst g rest _ (pipeStep_pipeInRange burst i g s h)

/-- A spawn installs a pair whose gap center respects the bounds, so the
invariant survives it. -/
theorem spawnPipePair_pipeInRange (r : ℚ) (s : Game)
    (h : ∀ p ∈ s.pipePool, pipeInRange s.pipeGap p)
    (h0 : 0 ≤ r) (h1 : r < 1)
    (hz : ∃ z : ℤ, (z : ℚ) = minCenter s.pipeGap)
    (hle : minCenter s.pipeGap ≤ maxCenter s.pipeGap) :
    ∀ p ∈ (spawnPipePair r s).pipePool, pipeInRange s.pipeGap p := by
  unfold spawnPipePair
  dsimp only
  intro q hq
  rcases List.mem_or_eq_of_mem_set hq with hmem | rfl
  · exact h q hmem
  · exact fun _ => gapY_bounded s.pipeGap r h0 h1 hz hle

/-- The spawn-timer stage preserves the gap-center invariant. -/
theorem spawnStage_pipeInRange (dt r : ℚ) (s : Game)
    (h : ∀ p ∈ s.pipePool, pipeInRange s.pipeGap p)
    (h0 : 0 ≤ r) (h1 : r < 1)
    (hz : ∃ z : ℤ, (z : ℚ) = minCenter s.pipeGap)
    (hle : minCenter s.pipeGap ≤ maxCenter s.pipeGap) :
    ∀ p ∈ (spawnStage dt r s).pipePool, pipeInRange s.pipeGap p := by
  unfold spawnStage
  dsimp only
  split
  · exact spawnPipePair_pipeInRange r _ h h0 h1 hz hle
  · exact h

/-- The Playing frame body preserves the gap-center invariant. -/
theorem playingFrame_pipeInRange (dt r : ℚ) (burst : List PartSpec) (t : Game)
    (h : ∀ p ∈ t.pipePool, pipeInRange t.pipeGap p)
    (h0 : 0 ≤ r) (h1 : r < 1)
    (hz : ∃ z : ℤ, (z : ℚ) = minCenter t.pipeGap)
    (hle : minCenter t.pipeGap ≤ maxCenter t.pipeGap) :
    ∀ p ∈ (playingFrame dt r burst t).pipePool, pipeInRange t.pipeGap p := by
  unfold playingFrame
  dsimp only
  split_ifs with hb1 hb2 hb3
  · exact h
  · exact h
  · exact pipesLoop_pipeInRange burst t.pipeGap _ _
      (spawnStage_pipeInRange dt r _ h h0 h1 hz hle)
  · exact pipesLoop_pipeInRange burst t.pipeGap _ _
      (spawnStage_pipeInRange dt r _ h h0 h1 hz hle)

/-- For each difficulty preset, `minCenter` is an integer and the spawn
interval `[minCenter, maxCenter]` is nonempty. -/
theorem preset_minCenter_facts (g : ℚ) (hpre : g = 150 ∨ g = 180) :
    (∃ z : ℤ, (z : ℚ) = minCenter g) ∧ minCenter g ≤ maxCenter g := by
  rcases hpre with rfl | rfl
  · exact ⟨⟨135, by norm_num [minCenter, PIPE_MIN_Y, max_def]⟩,
      by norm_num [minCenter, maxCenter, PIPE_MIN_Y, LOGICAL_HEIGHT,
        GROUND_HEIGHT, max_def]⟩
  · exact ⟨⟨150, by norm_num [minCenter, PIPE_MIN_Y, max_def]⟩,
      by norm_num [minCenter, maxCenter, PIPE_MIN_Y, LOGICAL_HEIGHT,
        GROUND_HEIGHT, max_def]⟩

/-- C7.  (a) A spawn installs, at the acquired slot, a pair positioned
just past the right edge (`x = LOGICAL_WIDTH + PIPE_WIDTH`), with its
scored flag cleared, its active flag set, and its gap center within
`[minCenter, maxCenter]` for the current preset, given a draw `r ∈ [0,1)`.
(b) The per-frame update preserves "every active pair's gap center lies
within `[minCenter, maxCenter]`" for the current preset. -/
theorem spawn_bounds_and_invariant :
    (∀ (r : ℚ) (s : Game), 0 ≤ r → r < 1 →
      (s.pipeGap = 150 ∨ s.pipeGap = 180) →
      acquireIdx s.pipePool < s.pipePool.length →
      ((spawnPipePair r s).pipePool.getD (acquireIdx s.pipePool) createPipePair).x =
          LOGICAL_WIDTH + PIPE_WIDTH ∧
      ((spawnPipePair r s).pipePool.getD (acquireIdx s.pipePool) createPipePair).scored =
          false ∧
      ((spawnPipePair r s).pipePool.getD (acquireIdx s.pipePool) createPipePair).active =
          true ∧
      minCenter s.pipeGap ≤
        ((spawnPipePair r s).pipePool.getD (acquireIdx s.pipePool) createPipePair).gapY ∧
      ((spawnPipePair r s).pipePool.getD (acquireIdx s.pipePool) createPipePair).gapY ≤
        maxCenter s.pipeGap) ∧
    (∀ (dtMs now r : ℚ) (burst : List PartSpec) (s : Game), 0 ≤ r → r < 1 →
      (s.pipeGap = 150 ∨ s.pipeGap = 180) →
      (∀ p ∈ s.pipePool, pipeInRange s.pipeGap p) →
      ∀ p ∈ (update dtMs now r burst s).pipePool, pipeInRange s.pipeGap p) := by
  constructor
  · intro r s h0 h1 hpre hlen
    obtain ⟨hz, hle⟩ := preset_minCenter_facts s.pipeGap hpre
    unfold spawnPipePair
    dsimp only
    rw [List.getD_eq_getElem _ createPipePair (by simpa using hlen),
      List.getElem_set_self]
    exact ⟨rfl, rfl, rfl, (gapY_bounded s.pipeGap r h0 h1 hz hle).1,
      (gapY_bounded s.pipeGap r h0 h1 hz hle).2⟩
  · intro dtMs now r burst s h0 h1 hpre h
    obtain ⟨hz, hle⟩ := preset_minCenter_facts s.pipeGap hpre
    unfold update
    dsimp only
    split
    · exact h
    · by_cases hai : s.aiEnabled = true
      · rw [if_pos hai]
        have hgap := (aiThink_frame now s).2.2.2
        have hpool := (aiThink_frame now s).2.1
        rw [← hgap]
        refine playingFrame_pipeInRange _ _ _ _ ?_ h0 h1 ?_ ?_
        · rw [hpool, hgap]
          exact h
        · rw [hgap]
          exact hz
        · rw [hgap]
          exact hle
      · rw [if_neg hai]
        exact playingFrame_pipeInRange _ _ _ _ h h0 h1 hz hle

/-- C7, witness: a spawn at draw r = 1/2 in the concrete state `playDemo`
(acquiring slot 0 of the fresh pool). -/
theorem spawn_bounds_and_invariant_witness :
    ((spawnPipePair (1/2) playDemo).pipePool.getD (acquireIdx playDemo.pipePool)
        createPipePair).x = LOGICAL_WIDTH + PIPE_WIDTH ∧
    ((spawnPipePair (1/2) playDemo).pipePool.getD (acquireIdx playDemo.pipePool)
        createPipePair).scored = false ∧
    ((spawnPipePair (1/2) playDemo).pipePool.getD (acquireIdx playDemo.pipePool)
        createPipePair).active = true ∧
    minCenter playDemo.pipeGap ≤
      ((spawnPipePair (1/2) playDemo).pipePool.getD (acquireIdx playDemo.pipePool)
        createPipePair).gapY ∧
    ((spawnPipePair (1/2) playDemo).pipePool.getD (acquireIdx playDemo.pipePool)
        createPipePair).gapY ≤ maxCenter playDemo.pipeGap :=
  spawn_bounds_and_invariant.1 (1/2) playDemo (by norm_num) (by norm_num)
    (Or.inl rfl) (by decide)

/-! ### C8: the circle-vs-rectangle test -/

/-- C8.  The collision test returns true exactly when the squared distance
from the circle center to the center clamped into the rectangle (its
nearest point) is at most the squared radius; and for a center displaced
by `(-a, -b)` from the rectangle's top-left corner (so that corner is the
nearest point), it collides exactly when `a² + b² ≤ r²` — radius equal to
the corner distance collides, any smaller nonnegative radius does not. -/
theorem circleRect_iff_and_corner :
    (∀ cx cy cr rx ry rw rh : ℚ,
      circleRectCollision cx cy cr rx ry rw rh = true ↔
        (cx - max rx (min cx (rx + rw))) * (cx - max rx (min cx (rx + rw))) +
        (cy - max ry (min cy (ry + rh))) * (cy - max ry (min cy (ry + rh))) ≤
          cr * cr) ∧
    (∀ a b cr rx ry rw rh : ℚ, 0 ≤ a → 0 ≤ b → 0 ≤ rw → 0 ≤ rh →
      (circleRectCollision (rx - a) (ry - b) cr rx ry rw rh = true ↔
        a * a + b * b ≤ cr * cr)) := by
  constructor
  · intro cx cy cr rx ry rw rh
    unfold circleRectCollision
    dsimp only
    rw [decide_eq_true_eq]
  · intro a b cr rx ry rw rh ha hb hw hh
    unfold circleRectCollision
    dsimp only
    rw [min_eq_left (by linarith), max_eq_left (by linarith),
      min_eq_left (by linarith), max_eq_left (by linarith),
      show rx - a - rx = -a from by ring, show ry - b - ry = -b from by ring,
      neg_mul_neg, neg_mul_neg, decide_eq_true_eq]

/-- C8, witness: center (-3,-4) against the square (0,0)-(10,10), corner
distance 5: radius 5 collides, radius 4.5 does not. -/
theorem circleRect_corner_witness :
    circleRectCollision (0 - 3) (0 - 4) 5 0 0 10 10 = true ∧
    circleRectCollision (0 - 3) (0 - 4) (9/2) 0 0 10 10 = false := by
  have h5 := circleRect_iff_and_corner.2 3 4 5 0 0 10 10 (by norm_num)
    (by norm_num) (by norm_num) (by norm_num)
  have h45 := circleRect_iff_and_corner.2 3 4 (9/2) 0 0 10 10 (by norm_num)
    (by norm_num) (by norm_num) (by norm_num)
  constructor
  · exact h5.mpr (by norm_num)
  · rw [Bool.eq_false_iff]
    intro hc
    have hcc := h45.mp hc
    norm_num at hcc

end Flappy
